import Mathlib

/-!
Verification development for the sentry-ai-resolver repository.

The Python sources (`git_manager.py`, `main.py`, `issue_analyzer.py`,
`config.py`) are shallowly embedded as executable Lean definitions:
strings are Lean `String`s manipulated through their underlying `List Char`
(code points, matching Python string semantics), Python `int` is `Int`,
Python `float` confidence scores are modelled as `ℚ`, and the effectful
orchestration code (`main.py`) is modelled as pure trace-producing
functions over an environment of collaborator results.
-/

namespace SentrySolver

/-! ## Python string primitives (code-point level, ASCII whitespace/case) -/

/-- Whitespace characters recognised by Python `str.strip` / `str.split`
(ASCII subset: space, tab, newline, carriage return, vertical tab, form feed). -/
def pyIsWs (c : Char) : Bool :=
  c = ' ' || c = '\t' || c = '\n' || c = '\r' || c = Char.ofNat 11 || c = Char.ofNat 12

/-- List-level both-ends strip. -/
def stripL (l : List Char) : List Char :=
  ((l.dropWhile pyIsWs).reverse.dropWhile pyIsWs).reverse

/-- Python `s.strip()`. -/
def pyStrip (s : String) : String := String.mk (stripL s.data)

/-- Python `s.lstrip()`. -/
def pyLstrip (s : String) : String := String.mk (s.data.dropWhile pyIsWs)

/-- Python truthiness of a string (`if s:` fails iff `s` is empty). -/
def pyEmpty (s : String) : Bool := s.data.isEmpty

/-- Contiguous-sublist test at the `List Char` level (helper for Python
substring membership). -/
def listContains (n : List Char) : List Char → Bool
  | [] => n.isPrefixOf []
  | c :: t => n.isPrefixOf (c :: t) || listContains n t

/-- Python substring membership `needle in hay`. -/
def pyIn (needle hay : String) : Bool := listContains needle.data hay.data

/-- Python `s.startswith(pre)`. -/
def pyStartswith (pre s : String) : Bool := pre.data.isPrefixOf s.data

/-- Python `s.endswith(suf)`. -/
def pyEndswith (suf s : String) : Bool := suf.data.isSuffixOf s.data

/-- Python slice `s[:n]` (by code points). -/
def pyTake (s : String) (n : Nat) : String := String.mk (s.data.take n)

/-- Python `s.lower()` (ASCII model of `str.lower`). -/
def pyLower (s : String) : String := String.mk (s.data.map Char.toLower)

/-- The leading-whitespace slice `line[:len(line) - len(line.lstrip())]`
used throughout `git_manager.py` to read off the indentation of a line. -/
def indentOf (s : String) : String :=
  String.mk (s.data.take (s.data.length - (s.data.dropWhile pyIsWs).length))

/-- Python `s.split(sep)` restricted to the newline separator, at the
`List Char` level (`split` never returns an empty list). -/
def splitNLChars : List Char → List (List Char)
  | [] => [[]]
  | c :: cs =>
    if c = '\n' then [] :: splitNLChars cs
    else
      match splitNLChars cs with
      | [] => [[c]]
      | w :: ws => (c :: w) :: ws

/-- Python `s.split('\n')`. -/
def splitNLs (s : String) : List String := (splitNLChars s.data).map String.mk

/-- Python `s.splitlines()` (newline-terminator model): like `split('\n')`
but the empty string yields `[]` and a trailing newline adds no final
empty element. -/
def pySplitlines (s : String) : List String :=
  if s.data.isEmpty then []
  else
    let parts := splitNLChars s.data
    (if parts.getLast? = some [] then parts.dropLast else parts).map String.mk

/-- Word splitter of Python `s.split()` (no argument): splits on runs of
whitespace and drops empty pieces. -/
def wordsGo : List Char → List Char → List (List Char)
  | [], acc => if acc.isEmpty then [] else [acc.reverse]
  | c :: cs, acc =>
    if pyIsWs c then
      (if acc.isEmpty then wordsGo cs [] else acc.reverse :: wordsGo cs [])
    else wordsGo cs (c :: acc)

/-- Python `s.split()`. -/
def pyWords (s : String) : List String := (wordsGo s.data []).map String.mk

/-- Python `s * n` for strings (repetition). -/
def strRepeat (s : String) (n : Nat) : String := String.join (List.replicate n s)

/-- Python `s.split(sep)[-1]` for a one-character separator. -/
def pyAfterLastSep (sep : Char) (s : String) : String :=
  String.mk ((s.data.reverse.takeWhile (fun c => c ≠ sep)).reverse)

/-- Python `s.split(sep)[0]` / `s.split(sep, 1)[0]` for a one-character
separator. -/
def pyBeforeFirst (sep : Char) (s : String) : String :=
  String.mk (s.data.takeWhile (fun c => c ≠ sep))

/-- Python `s.split(sep, 1)[1]` for a one-character separator, available
exactly when the separator occurs (`sep in s`). -/
def pyAfterFirst (sep : Char) (s : String) : Option String :=
  match s.data.dropWhile (fun c => c ≠ sep) with
  | [] => none
  | _ :: r => some (String.mk r)

/-! ### Basic lemmas about the primitives -/

theorem pyTake_length (s : String) (n : Nat) :
    (pyTake s n).length = min n s.length := by
  cases s
  simp [pyTake]

theorem length_dropWhile_le (p : Char → Bool) (l : List Char) :
    (l.dropWhile p).length ≤ l.length := by
  have h := congrArg List.length (List.takeWhile_append_dropWhile (p := p) (l := l))
  simp only [List.length_append] at h
  omega

theorem take_sub_eq_takeWhile (p : Char → Bool) (l : List Char) :
    l.take (l.length - (l.dropWhile p).length) = l.takeWhile p := by
  induction l with
  | nil => rfl
  | cons c cs ih =>
    by_cases hc : p c = true
    · rw [List.dropWhile_cons_of_pos hc, List.takeWhile_cons_of_pos hc]
      have hle := length_dropWhile_le p cs
      have harith : (c :: cs).length - (cs.dropWhile p).length
          = (cs.length - (cs.dropWhile p).length) + 1 := by
        simp only [List.length_cons]; omega
      rw [harith, List.take_succ_cons, ih]
    · rw [List.dropWhile_cons_of_neg hc, List.takeWhile_cons_of_neg hc]
      simp

theorem indentOf_eq_takeWhile (s : String) :
    indentOf s = String.mk (s.data.takeWhile pyIsWs) := by
  unfold indentOf
  rw [take_sub_eq_takeWhile]

theorem pyEmpty_of_strip_nonempty {s : String} (h : pyEmpty (pyStrip s) = false) :
    pyEmpty s = false := by
  by_contra hne
  have hs : pyEmpty s = true := by
    cases hh : pyEmpty s
    · exact absurd hh hne
    · rfl
  have : s.data = [] := by
    simpa [pyEmpty, List.isEmpty_iff] using hs
  rw [show s = String.mk s.data from rfl, this] at h
  simp [pyStrip, stripL, pyEmpty] at h

/-! ## Data model (`config.py`, `issue_analyzer.py`, `sentry_client.py`) -/

/-- The configuration fields of `Config` in `config.py` that the embedded
operations consult.  The source field names `git_branch_prefix` and
`commit_message_prefix` are shortened to `git_branch_pref` and
`commit_message_pref`. -/
structure Config where
  enable_safety_checks : Bool
  allow_config_file_fixes : Bool
  allow_migration_fixes : Bool
  allow_system_command_fixes : Bool
  git_default_branch : String
  git_branch_pref : String
  git_include_issue_id : Bool
  git_include_timestamp : Bool
  commit_message_pref : String
  commit_message_format : String
  git_auto_push : Bool

/-- The `FixSuggestion` dataclass of `issue_analyzer.py`.  `line_number`
is a Python `int` (`Int`); the float `confidence` is modelled as `ℚ`. -/
structure FixSuggestion where
  file_path : String
  line_number : Int
  original_code : String
  fixed_code : String
  explanation : String
  confidence : ℚ

/-- The `SentryIssue` dataclass of `sentry_client.py` (the fields the
embedded operations consult). -/
structure SentryIssue where
  id : String
  title : String
  culprit : String
  permalink : String
  count : Int
  level : String
  status : String
  first_seen : String
  last_seen : String

/-! ## CodePatcher (`git_manager.py` lines 387-519) -/

/-- The helper `_apply_hierarchical_indentation` (lines 500-519): anchor a
fixed-code line at `base` indentation, appending one 4-space unit per
4 columns of original leading whitespace that the line itself carries. -/
def applyHierarchicalIndentation (line base : String) : String :=
  let stripped := pyStrip line
  let originalLineIndent := line.length - (pyLstrip line).length
  let additionalIndent := if 0 < originalLineIndent
    then strRepeat "    " (originalLineIndent / 4) else ""
  base ++ additionalIndent ++ stripped

/-- Per-line processing shared by `_replace_code_block` (lines 448-453) and
`_context_based_insertion` (lines 467-472): non-blank lines are re-indented
hierarchically, blank lines are kept verbatim. -/
def processedLines (fixedLines : List String) (base : String) : List String :=
  fixedLines.map (fun f =>
    if !pyEmpty (pyStrip f) then applyHierarchicalIndentation f base else f)

/-- The helper `_matches_original_code` (lines 423-432): the stripped
original lines must each be a substring of the corresponding stripped
buffer line, and the run must fit in the buffer. -/
def matchesOriginalCode (lines : List String) (start : Nat) (orig : List String) : Bool :=
  if lines.length < start + orig.length then false
  else (List.range orig.length).all (fun j =>
    pyIn (pyStrip (orig.getD j "")) (pyStrip (lines.getD (start + j) "")))

/-- Fuel-indexed search loop of `_replace_original_code` (lines 414-419):
scan indices `i, i+1, ...` (`fuel` many) for the first match. -/
def findMatchGo (lines orig : List String) : Nat → Nat → Option Nat
  | 0, _ => none
  | fuel + 1, i =>
    if matchesOriginalCode lines i orig then some i
    else findMatchGo lines orig fuel (i + 1)

/-- The search over `range(start_search, end_search)` in
`_replace_original_code`. -/
def findMatchIn (lines orig : List String) (start stop : Nat) : Option Nat :=
  findMatchGo lines orig (stop - start) start

/-- The removal loop of `_replace_code_block` (lines 443-445): `k` bound
checked `lines.pop(start_idx)` calls. -/
def popLoop (l : List String) (start : Nat) : Nat → List String
  | 0 => l
  | k + 1 =>
    popLoop (if start < l.length then l.take start ++ l.drop (start + 1) else l) start k

/-- Sequential `lines.insert(start + i, f)` calls (Python `list.insert`
clamps an out-of-range index to the end, as `take`/`drop` do). -/
def insertSeq : List String → Nat → List String → List String
  | l, _, [] => l
  | l, i, f :: fs => insertSeq (l.take i ++ f :: l.drop i) (i + 1) fs

/-- The helper `_replace_code_block` (lines 434-453). -/
def replaceCodeBlock (lines : List String) (start : Nat)
    (orig fixedLines : List String) : List String :=
  let base := if start < lines.length then indentOf (lines.getD start "") else ""
  insertSeq (popLoop lines start orig.length) start (processedLines fixedLines base)

/-- The helper `_replace_original_code` (lines 404-421), returning the
success flag together with the resulting buffer (the Python code mutates
`lines` in place only when a match is found). -/
def replaceOriginalCode (lines : List String) (fix : FixSuggestion) (t : Nat) :
    Bool × List String :=
  let orig := splitNLs (pyStrip fix.original_code)
  let fixedLines := splitNLs (pyStrip fix.fixed_code)
  let startSearch := t - 10
  let stopSearch := min lines.length (t + 10)
  match findMatchIn lines orig startSearch stopSearch with
  | some i => (true, replaceCodeBlock lines i orig fixedLines)
  | none => (false, lines)

/-- The offset loop of `_get_appropriate_indentation` (lines 489-498),
ending in the 4-space default. -/
def indentFromOffsets (lines : List String) (t : Nat) : List Int → String
  | [] => "    "
  | o :: os =>
    let ci : Int := (t : Int) + o
    if 0 ≤ ci ∧ ci < (lines.length : Int) then
      (if !pyEmpty (pyStrip (lines.getD ci.toNat "")) then indentOf (lines.getD ci.toNat "")
       else indentFromOffsets lines t os)
    else indentFromOffsets lines t os

/-- The helper `_get_appropriate_indentation` (lines 481-498). -/
def getAppropriateIndentation (lines : List String) (t : Nat) : String :=
  if t < lines.length then
    (if !pyEmpty (pyStrip (lines.getD t "")) then indentOf (lines.getD t "")
     else indentFromOffsets lines t [-1, 1, -2, 2])
  else indentFromOffsets lines t [-1, 1, -2, 2]

/-- The helper `_context_based_insertion` (lines 455-479). -/
def contextBasedInsertion (lines : List String) (fix : FixSuggestion) (t : Nat) :
    Bool × List String :=
  if lines.length ≤ t then (false, lines)
  else
    let indentation := getAppropriateIndentation lines t
    let fixedLines := splitNLs (pyStrip fix.fixed_code)
    (true, insertSeq lines t (processedLines fixedLines indentation))

/-- The entry point `_apply_intelligent_fix` (lines 387-402), returning the
success flag together with the resulting buffer. -/
def applyIntelligentFix (lines : List String) (fix : FixSuggestion) :
    Bool × List String :=
  if fix.line_number = 0 ∨ fix.line_number ≤ 0 ∨ (lines.length : Int) < fix.line_number
  then (false, lines)
  else
    if (!pyEmpty fix.original_code && !pyEmpty (pyStrip fix.original_code)) = true then
      (if (replaceOriginalCode lines fix ((fix.line_number - 1).toNat)).1
       then replaceOriginalCode lines fix ((fix.line_number - 1).toNat)
       else contextBasedInsertion lines fix ((fix.line_number - 1).toNat))
    else contextBasedInsertion lines fix ((fix.line_number - 1).toNat)

/-- The read-patch-write core of `apply_fix` (`git_manager.py` lines
119-135), downstream of the safety gate and path resolution: the file
content is split into lines, `_apply_intelligent_fix` runs on the buffer,
and the joined buffer is written back only on success (`none` models "no
write happens, apply_fix returns False"). -/
def applyFixContent (fix : FixSuggestion) (content : String) : Option String :=
  let lines := pySplitlines content
  let r := applyIntelligentFix lines fix
  if r.1 then some (String.intercalate "\n" r.2) else none

/-! ## SafetyValidator (`_is_safe_to_apply`, `git_manager.py` lines 521-585) -/

/-- The `dangerous_file_patterns` list (lines 529-532). -/
def dangerousFilePatterns : List String :=
  [".env", "config.php", "database.php", ".htaccess",
   "composer.json", "package.json", "artisan", "web.config"]

/-- The `dangerous_code_patterns` list (lines 541-546); `\x60` is the
backtick character. -/
def dangerousCodePatterns : List String :=
  ["artisan migrate", "composer install", "npm install",
   "php artisan", "shell_exec", "exec(", "system(",
   "proc_open", "passthru", "\x60", "eval(",
   "migration", "schema", "database"]

/-- The `safe_directories` list (lines 561-567). -/
def safeDirectories : List String :=
  ["app/", "src/", "lib/", "includes/", "classes/",
   "controllers/", "models/", "views/", "helpers/",
   "services/", "repositories/", "middleware/",
   "public/", "resources/", "routes/", "config/",
   "bootstrap/", "database/", "tests/"]

/-- The sensitive-filename screen (lines 534-538): some pattern occurs in
the lowered path and `allow_config_file_fixes` is off. -/
def fileBlocked (cfg : Config) (fix : FixSuggestion) : Bool :=
  dangerousFilePatterns.any (fun pat =>
    pyIn pat (pyLower fix.file_path) && !cfg.allow_config_file_fixes)

/-- The dangerous-code screen (lines 548-558) over
`f"{original_code} {fixed_code}".lower()`, with the migration/schema and
exec/system/shell_exec configuration overrides. -/
def codeBlocked (cfg : Config) (fix : FixSuggestion) : Bool :=
  let codeContent := pyLower (fix.original_code ++ " " ++ fix.fixed_code)
  dangerousCodePatterns.any (fun pat =>
    pyIn pat codeContent &&
    !((pyIn "migration" pat || pyIn "schema" pat) && cfg.allow_migration_fixes) &&
    !((["exec", "system", "shell_exec"].any (fun cmd => pyIn cmd pat)) &&
      cfg.allow_system_command_fixes))

/-- The vendor-path test (line 570). -/
def vendorPath (fix : FixSuggestion) : Bool :=
  pyIn "/vendor/" fix.file_path || pyStartswith "vendor/" fix.file_path

/-- The full `_is_safe_to_apply` check (lines 521-585), in source order:
global disable, sensitive files, dangerous code, vendor paths, the
`line_number == 0` general-helper exception, and the safe-directory
allowlist. -/
def isSafeToApply (cfg : Config) (fix : FixSuggestion) : Bool :=
  if !cfg.enable_safety_checks then true
  else if fileBlocked cfg fix then false
  else if codeBlocked cfg fix then false
  else if vendorPath fix then false
  else if fix.line_number = 0 then true
  else if !(safeDirectories.any (fun d => pyIn d (pyLower fix.file_path))) then false
  else true

/-! ## Commit messages (`git_manager.py` lines 226-345) -/

/-- Model of the Python float format `f"{c:.1%}"` on the rational
confidence: the value times 100, rounded to one decimal place. -/
def pctDisplay (c : ℚ) : String :=
  let t : ℤ := round (c * 1000)
  toString (t / 10) ++ "." ++ toString (t % 10) ++ "%"

/-- The `_generate_simple_commit` body (lines 238-243): assembled title,
truncated to 69 characters plus an ellipsis when longer than 72. -/
def generateSimpleCommit (cfg : Config) (cleanTitle fileName : String) : String :=
  let commitTitle := cfg.commit_message_pref ++ ": " ++ cleanTitle ++ " in " ++ fileName
  if 72 < commitTitle.length then pyTake commitTitle 69 ++ "..." else commitTitle

/-- The structured body appended by `_generate_conventional_commit`
(lines 251-258). -/
def conventionalBody (issue : SentryIssue) (fix : FixSuggestion) : String :=
  "\n\n- Fixed " ++ issue.level ++ " error in " ++ fix.file_path ++ ":"
    ++ toString fix.line_number
    ++ "\n- Issue ID: " ++ issue.id
    ++ "\n- Occurrences: " ++ toString issue.count
    ++ "\n- Confidence: " ++ pctDisplay fix.confidence
    ++ "\n\nSentry Issue: " ++ issue.permalink

/-- The `_generate_conventional_commit` body (lines 245-260). -/
def generateConventionalCommit (cfg : Config) (issue : SentryIssue)
    (fix : FixSuggestion) (cleanTitle fileName : String) : String :=
  let commitTitle := cfg.commit_message_pref ++ ": " ++ cleanTitle ++ " in " ++ fileName
  let commitTitle := if 72 < commitTitle.length
    then pyTake commitTitle 69 ++ "..." else commitTitle
  commitTitle ++ conventionalBody issue fix

/-- The body appended by `_generate_detailed_commit` (lines 268-285). -/
def detailedBody (issue : SentryIssue) (fix : FixSuggestion) : String :=
  "\n\n- Fixed " ++ issue.level ++ " error in " ++ fix.file_path ++ ":"
    ++ toString fix.line_number
    ++ "\n- Issue ID: " ++ issue.id
    ++ "\n- Occurrences: " ++ toString issue.count
    ++ "\n- Confidence: " ++ pctDisplay fix.confidence
    ++ "\n\n## Fix Details\n" ++ fix.explanation
    ++ "\n\n## Code Changes\nOriginal:\n" ++ fix.original_code
    ++ "\n\nFixed:\n" ++ fix.fixed_code
    ++ "\n\nSentry Issue: " ++ issue.permalink

/-- The `_generate_detailed_commit` body (lines 262-287). -/
def generateDetailedCommit (cfg : Config) (issue : SentryIssue)
    (fix : FixSuggestion) (cleanTitle fileName : String) : String :=
  let commitTitle := cfg.commit_message_pref ++ ": " ++ cleanTitle ++ " in " ++ fileName
  let commitTitle := if 72 < commitTitle.length
    then pyTake commitTitle 69 ++ "..." else commitTitle
  commitTitle ++ detailedBody issue fix

/-- The `_clean_error_context` helper (lines 321-345); `\x7b`/`\x7d` are
the brace characters and `\x27` the apostrophe. -/
def cleanErrorContext (context : String) : String :=
  let c := pyStrip context
  if ["\x7b", "\x7d", "\x7b\x7d", "[]", "\"\"", "\x27\x27"].contains c then ""
  else if pyStartswith "\x7b" c && !pyEndswith "\x7d" c then ""
  else if pyStartswith "\x7b" c && 50 < c.length then "malformed request data"
  else
    let c := String.mk (c.data.map (fun ch =>
      if ch = '\n' then ' ' else if ch = '\r' then ' ' else ch))
    let c := String.intercalate " " (pyWords c)
    if 30 < c.length then pyTake c 27 ++ "..." else c

/-- The `_extract_clean_error_title` helper (lines 289-319). -/
def extractCleanErrorTitle (title : String) : String :=
  if pyIn "\\" title then
    let errorType := pyStrip (pyBeforeFirst ':' (pyAfterLastSep '\\' title))
    match pyAfterFirst ':' title with
    | some rest =>
      let context := cleanErrorContext (pyStrip rest)
      if !pyEmpty context then errorType ++ ": " ++ context else errorType
    | none => errorType
  else
    match pyAfterFirst ':' title with
    | some rest =>
      let errorPart := pyStrip (pyBeforeFirst ':' title)
      let context := cleanErrorContext (pyStrip rest)
      if !pyEmpty context then errorPart ++ ": " ++ context else errorPart
    | none => if 40 < title.length then pyTake title 40 ++ "..." else title

/-! ## Branch names (`_generate_branch_name`, `git_manager.py` lines 45-62) -/

/-- The sanitized error-type token of `_generate_branch_name` (lines
53-55): the clean error title up to the first colon, filtered to
alphanumerics, dash and underscore, then lowered. -/
def branchToken (title : String) : String :=
  pyLower (String.mk ((pyBeforeFirst ':' (extractCleanErrorTitle title)).data.filter
    (fun c => c.isAlphanum || c = '-' || c = '_')))

/-- The `_generate_branch_name` body (lines 45-62); `now` stands for
`datetime.now().strftime` with the format `%Y%m%d-%H%M%S`. -/
def generateBranchName (cfg : Config) (issueId title now : String) : String :=
  let parts := [cfg.git_branch_pref]
    ++ (if cfg.git_include_issue_id then [issueId] else [])
  let cleanError := branchToken title
  let parts := parts
    ++ (if !pyEmpty cleanError ∧ 3 < cleanError.length then [pyTake cleanError 20] else [])
  let parts := parts ++ (if cfg.git_include_timestamp then [now] else [])
  String.intercalate "-" parts

/-! ## Orchestration traces (`main.py` and the git workflow) -/

/-- Result of a git workflow step as observed by `process_issue`:
returned `True`, returned `False`, or raised an exception that escapes
into the surrounding `try`. -/
inductive StepResult
  | ok
  | failed
  | exn
deriving DecidableEq

/-- Calls into `GitManager` / the Sentry client made by `process_issue`,
plus the branch-level effects needed to track which branches exist. -/
inductive GitCall
  | createFixBranchCall
  | branchCreated (b : String)
  | applyFixCall
  | commitFixCall
  | pushBranchCall (b : String)
  | cleanupBranchCall (b : String)
  | checkout (b : String)
  | deleteBranch (b : String) (force : Bool)
  | resolveIssueCall
deriving DecidableEq

/-- Collaborator results visible to one `process_issue` run: whether
`get_issue_details` returned an issue, the analyzer suggestion, whether
a `GitManager` repo object exists, and the outcomes of the branch /
apply / commit / push steps (`apply_fix` catches all its exceptions, so
it only returns a Bool; `lateExn` models an exception raised after a
successful push, inside the database/resolve tail of the `try` block). -/
structure ProcEnv where
  detailsAvailable : Bool
  suggestion : Option FixSuggestion
  repoPresent : Bool
  branchNameResult : Option String
  applyOk : Bool
  commitResult : StepResult
  pushResult : StepResult
  lateExn : Bool

/-- The `cleanup_branch` body (`git_manager.py` lines 347-360): with a
repo object, check out the default branch and force-delete the fix
branch. -/
def cleanupBranchOps (cfg : Config) (repoPresent : Bool) (b : String) : List GitCall :=
  if repoPresent then [.checkout cfg.git_default_branch, .deleteBranch b true] else []

/-- Trace of git-workflow calls made by one `process_issue` run
(`main.py` lines 76-209), following the control flow of the source: early
returns before branch creation, cleanup on every failed or throwing step
after branch creation, auto-resolution only above 0.8 confidence. -/
def processIssue (cfg : Config) (env : ProcEnv) : List GitCall :=
  if !env.detailsAvailable then []
  else
    match env.suggestion with
    | none => []
    | some fix =>
      if fix.confidence < 6/10 then []
      else
        match (if env.repoPresent then env.branchNameResult else none) with
        | none => [.createFixBranchCall]
        | some b =>
          [.createFixBranchCall, .branchCreated b, .applyFixCall]
          ++ (if !env.applyOk then
                .cleanupBranchCall b :: cleanupBranchOps cfg env.repoPresent b
              else
                [.commitFixCall]
                ++ (match env.commitResult with
                    | .failed => .cleanupBranchCall b :: cleanupBranchOps cfg env.repoPresent b
                    | .exn => .cleanupBranchCall b :: cleanupBranchOps cfg env.repoPresent b
                    | .ok =>
                      [.pushBranchCall b]
                      ++ (match env.pushResult with
                          | .failed =>
                            .cleanupBranchCall b :: cleanupBranchOps cfg env.repoPresent b
                          | .exn =>
                            .cleanupBranchCall b :: cleanupBranchOps cfg env.repoPresent b
                          | .ok =>
                            if env.lateExn then
                              .cleanupBranchCall b :: cleanupBranchOps cfg env.repoPresent b
                            else if 8/10 < fix.confidence then [.resolveIssueCall]
                            else [])))

/-- Branches created during a trace and not subsequently deleted. -/
def liveBranches (tr : List GitCall) : List String :=
  tr.foldl (fun acc c =>
    match c with
    | .branchCreated b => acc ++ [b]
    | .deleteBranch b _ => acc.filter (fun x => x ≠ b)
    | _ => acc) []

/-- Repository cleanliness data consulted by `is_repo_clean`
(`git_manager.py` lines 362-366): `none` models a missing repo object. -/
structure RepoStatus where
  isDirty : Bool
  untrackedFiles : List String

/-- The `is_repo_clean` body. -/
def isRepoClean : Option RepoStatus → Bool
  | none => false
  | some r => !r.isDirty && r.untrackedFiles.isEmpty

/-- Collaborator results visible to one `run_cycle` run. -/
structure CycleEnv where
  repo : Option RepoStatus
  issueIds : List String

/-- Calls made by `run_cycle` (`main.py` lines 40-74). -/
inductive CycleCall
  | fetchIssues
  | processIssueCall (id : String)
deriving DecidableEq

/-- Trace of one `run_cycle` run: abort with no calls when the repo is
not clean, otherwise fetch the issues and process each in order. -/
def runCycle (env : CycleEnv) : List CycleCall :=
  if !isRepoClean env.repo then []
  else .fetchIssues :: env.issueIds.map .processIssueCall

/-! ## Lemmas about the CodePatcher -/

theorem matchesOriginalCode_le {lines orig : List String} {s : Nat}
    (h : matchesOriginalCode lines s orig = true) :
    s + orig.length ≤ lines.length := by
  unfold matchesOriginalCode at h
  by_cases hlt : lines.length < s + orig.length
  · rw [if_pos hlt] at h; exact absurd h (by simp)
  · omega

theorem findMatchGo_eq_none {lines orig : List String} :
    ∀ (fuel i : Nat),
      (∀ j, i ≤ j → j < i + fuel → matchesOriginalCode lines j orig = false) →
      findMatchGo lines orig fuel i = none := by
  intro fuel
  induction fuel with
  | zero => intro i _; rfl
  | succ f ih =>
    intro i h
    unfold findMatchGo
    rw [h i (le_refl i) (by omega), if_neg (by simp)]
    exact ih (i + 1) (fun j hj1 hj2 => h j (by omega) (by omega))

theorem findMatchGo_eq_some {lines orig : List String} :
    ∀ (fuel i i0 : Nat), i ≤ i0 → i0 < i + fuel →
      matchesOriginalCode lines i0 orig = true →
      (∀ j, i ≤ j → j < i0 → matchesOriginalCode lines j orig = false) →
      findMatchGo lines orig fuel i = some i0 := by
  intro fuel
  induction fuel with
  | zero => intro i i0 hle hlt _ _; omega
  | succ f ih =>
    intro i i0 hle hlt hm hmin
    unfold findMatchGo
    by_cases hii : i = i0
    · subst hii; rw [hm, if_pos rfl]
    · rw [hmin i (le_refl i) (by omega), if_neg (by simp)]
      exact ih (i + 1) i0 (by omega) (by omega) hm
        (fun j hj1 hj2 => hmin j (by omega) hj2)

theorem popLoop_splice :
    ∀ (k : Nat) (l : List String) (start : Nat), start + k ≤ l.length →
      popLoop l start k = l.take start ++ l.drop (start + k) := by
  intro k
  induction k with
  | zero =>
    intro l start _
    simp [popLoop]
  | succ k ih =>
    intro l start h
    have hlt : start < l.length := by omega
    unfold popLoop
    rw [if_pos hlt]
    have hlen : (l.take start ++ l.drop (start + 1)).length = l.length - 1 := by
      simp only [List.length_append, List.length_take, List.length_drop]
      omega
    rw [ih _ start (by omega)]
    have hstart_len : (l.take start).length = start := by
      simp only [List.length_take]; omega
    have htake : (l.take start ++ l.drop (start + 1)).take start = l.take start := by
      rw [List.take_append_eq_append_take, hstart_len]
      simp [List.take_take]
    have hdrop : (l.take start ++ l.drop (start + 1)).drop (start + k)
        = l.drop (start + (k + 1)) := by
      rw [List.drop_append_eq_append_drop, hstart_len]
      rw [List.drop_eq_nil_of_le (by omega : (l.take start).length ≤ start + k)]
      rw [List.drop_drop]
      have : start + 1 + (start + k - start) = start + (k + 1) := by omega
      rw [this]
      simp
    rw [htake, hdrop]

theorem insertSeq_splice :
    ∀ (fs : List String) (l : List String) (i : Nat), i ≤ l.length →
      insertSeq l i fs = l.take i ++ fs ++ l.drop i := by
  intro fs
  induction fs with
  | nil => intro l i _; simp [insertSeq]
  | cons f fs ih =>
    intro l i h
    unfold insertSeq
    have hstart_len : (l.take i).length = i := by
      simp only [List.length_take]; omega
    have hlen : (l.take i ++ f :: l.drop i).length = l.length + 1 := by
      simp only [List.length_append, List.length_cons, List.length_take, List.length_drop]
      omega
    rw [ih _ (i + 1) (by omega)]
    have htake : (l.take i ++ f :: l.drop i).take (i + 1) = l.take i ++ [f] := by
      rw [List.take_append_eq_append_take, hstart_len]
      have h1 : (l.take i).take (i + 1) = l.take i := by
        rw [List.take_take]
        congr 1
        omega
      have h2 : i + 1 - i = 1 := by omega
      rw [h1, h2]
      rfl
    have hdrop : (l.take i ++ f :: l.drop i).drop (i + 1) = l.drop i := by
      rw [List.drop_append_eq_append_drop, hstart_len]
      rw [List.drop_eq_nil_of_le (by omega : (l.take i).length ≤ i + 1)]
      have h2 : i + 1 - i = 1 := by omega
      rw [h2]
      rfl
    rw [htake, hdrop]
    simp

theorem getAppropriateIndentation_eq_offsets (lines : List String) (t : Nat) :
    getAppropriateIndentation lines t = indentFromOffsets lines t [0, -1, 1, -2, 2] := by
  unfold getAppropriateIndentation
  conv_rhs => unfold indentFromOffsets
  by_cases ht : t < lines.length
  · rw [if_pos ht]
    have h0 : (0 : Int) ≤ (t : Int) + 0 ∧ (t : Int) + 0 < (lines.length : Int) := by
      constructor <;> omega
    rw [if_pos h0]
    have htn : ((t : Int) + 0).toNat = t := by omega
    rw [htn]
  · rw [if_neg ht]
    have h0 : ¬((0 : Int) ≤ (t : Int) + 0 ∧ (t : Int) + 0 < (lines.length : Int)) := by
      omega
    rw [if_neg h0]

theorem take_splice (l : List String) (i m : Nat) (h : i ≤ l.length) :
    (l.take i ++ l.drop m).take i = l.take i := by
  have hlt : (l.take i).length = i := by
    simp only [List.length_take]; omega
  rw [List.take_append_eq_append_take, hlt, List.take_take, Nat.min_self, Nat.sub_self]
  simp

theorem drop_splice (l : List String) (i m : Nat) (h : i ≤ l.length) :
    (l.take i ++ l.drop m).drop i = l.drop m := by
  have hlt : (l.take i).length = i := by
    simp only [List.length_take]; omega
  rw [List.drop_append_eq_append_drop, hlt, Nat.sub_self,
    List.drop_eq_nil_of_le (le_of_eq hlt)]
  simp

theorem replaceOriginalCode_false {lines : List String} {fix : FixSuggestion} {t : Nat}
    (h : (replaceOriginalCode lines fix t).1 = false) :
    replaceOriginalCode lines fix t = (false, lines) := by
  revert h
  simp only [replaceOriginalCode]
  cases findMatchIn lines (splitNLs (pyStrip fix.original_code)) (t - 10)
      (min lines.length (t + 10)) with
  | none => intro _; rfl
  | some i => intro h; exact absurd h (by simp)

theorem contextBasedInsertion_false {lines : List String} {fix : FixSuggestion} {t : Nat}
    (h : (contextBasedInsertion lines fix t).1 = false) :
    contextBasedInsertion lines fix t = (false, lines) := by
  revert h
  unfold contextBasedInsertion
  by_cases hlen : lines.length ≤ t
  · rw [if_pos hlen]; intro _; rfl
  · rw [if_neg hlen]; intro h; exact absurd h (by simp)

theorem applyIntelligentFix_false {lines : List String} {fix : FixSuggestion}
    (h : (applyIntelligentFix lines fix).1 = false) :
    applyIntelligentFix lines fix = (false, lines) := by
  revert h
  unfold applyIntelligentFix
  by_cases hg : fix.line_number = 0 ∨ fix.line_number ≤ 0
      ∨ (lines.length : Int) < fix.line_number
  · rw [if_pos hg]; intro _; rfl
  · rw [if_neg hg]
    by_cases ho : (!pyEmpty fix.original_code && !pyEmpty (pyStrip fix.original_code)) = true
    · rw [if_pos ho]
      by_cases hr : (replaceOriginalCode lines fix ((fix.line_number - 1).toNat)).1 = true
      · rw [if_pos hr]; intro h; rw [hr] at h; exact absurd h (by simp)
      · rw [if_neg hr]; intro h; exact contextBasedInsertion_false h
    · rw [if_neg ho]; intro h; exact contextBasedInsertion_false h

/-! ## Example values used by witnesses and counterexamples -/

/-- Configuration with the default values of `config.py` (safety checks
on, all overrides off). -/
def exampleCfg : Config :=
  { enable_safety_checks := true
    allow_config_file_fixes := false
    allow_migration_fixes := false
    allow_system_command_fixes := false
    git_default_branch := "main"
    git_branch_pref := "sentry-fix"
    git_include_issue_id := true
    git_include_timestamp := true
    commit_message_pref := "fix"
    commit_message_format := "conventional"
    git_auto_push := true }

/-- The default configuration with `enable_safety_checks` turned off. -/
def exampleCfgNoChecks : Config :=
  { exampleCfg with enable_safety_checks := false }

/-- A fix targeting a file under `vendor/`. -/
def vendorFix : FixSuggestion :=
  { file_path := "vendor/lib/util.php"
    line_number := 5
    original_code := "old line"
    fixed_code := "new line"
    explanation := "swap"
    confidence := 9/10 }

/-- A low-confidence suggestion. -/
def lowConfidenceFix : FixSuggestion :=
  { file_path := "app/models/user.py"
    line_number := 3
    original_code := "a"
    fixed_code := "b"
    explanation := "guess"
    confidence := 1/2 }

/-- A general-helper suggestion (`line_number == 0`) with harmless content
in a directory outside the safe list. -/
def helperFix : FixSuggestion :=
  { file_path := "scripts/helper.py"
    line_number := 0
    original_code := ""
    fixed_code := "def safe_get(d, k):\n    return d.get(k)"
    explanation := "add helper"
    confidence := 9/10 }

/-- A confident suggestion used by the orchestration witnesses. -/
def confidentFix : FixSuggestion :=
  { file_path := "app/models/user.py"
    line_number := 2
    original_code := "old"
    fixed_code := "new"
    explanation := "swap"
    confidence := 7/10 }

/-- An issue used by the commit-message witnesses. -/
def exampleIssue : SentryIssue :=
  { id := "123"
    title := "KeyError: \x27foo\x27"
    culprit := "app.views"
    permalink := "https://sentry.example/issues/123"
    count := 42
    level := "error"
    status := "unresolved"
    first_seen := "2024-01-01"
    last_seen := "2024-01-02" }

/-- Process environment: everything succeeds but the suggestion has low
confidence. -/
def envLowConfidence : ProcEnv :=
  { detailsAvailable := true
    suggestion := some lowConfidenceFix
    repoPresent := true
    branchNameResult := some "sentry-fix-123"
    applyOk := true
    commitResult := .ok
    pushResult := .ok
    lateExn := false }

/-- Process environment: branch created, then `apply_fix` fails. -/
def envApplyFails : ProcEnv :=
  { detailsAvailable := true
    suggestion := some confidentFix
    repoPresent := true
    branchNameResult := some "sentry-fix-123"
    applyOk := false
    commitResult := .ok
    pushResult := .ok
    lateExn := false }

/-! ## Claim theorems -/

/-- C1: for every FixSuggestion with confidence < 0.6, `process_issue`
returns without creating a branch and without mutating any file:
`create_fix_branch`, `apply_fix`, `commit_fix` and `push_branch` are never
invoked for that issue (the call trace is empty). -/
theorem c1_low_confidence_makes_no_git_calls (cfg : Config) (env : ProcEnv)
    (fix : FixSuggestion) (hs : env.suggestion = some fix)
    (hc : fix.confidence < 6/10) :
    processIssue cfg env = [] := by
  unfold processIssue
  rw [hs]
  cases hd : env.detailsAvailable
  · simp
  · simp [hc]

/-- C1 witness: a concrete confidence-0.5 suggestion produces an empty
call trace. -/
theorem c1_witness :
    envLowConfidence.suggestion = some lowConfidenceFix
    ∧ lowConfidenceFix.confidence < 6/10
    ∧ processIssue exampleCfg envLowConfidence = [] :=
  ⟨rfl, by norm_num [lowConfidenceFix],
   c1_low_confidence_makes_no_git_calls exampleCfg envLowConfidence lowConfidenceFix rfl
     (by norm_num [lowConfidenceFix])⟩

/-- C2 counterexample: the claim asserts that `_is_safe_to_apply` rejects
vendor paths independently of every configuration flag including
`enable_safety_checks`, but with `enable_safety_checks = false` the
function returns `True` even for a `vendor/` path. -/
theorem c2_counterexample :
    vendorPath vendorFix = true
    ∧ exampleCfgNoChecks.enable_safety_checks = false
    ∧ isSafeToApply exampleCfgNoChecks vendorFix = true := by
  refine ⟨by decide, rfl, by decide⟩

/-- C2 (amended): whenever `enable_safety_checks` is on, a fix whose path
lies under a `vendor/` directory is rejected by `_is_safe_to_apply`,
independent of `allow_config_file_fixes`, `allow_migration_fixes` and
`allow_system_command_fixes` and independent of the fix content. -/
theorem c2_vendor_always_rejected (cfg : Config) (fix : FixSuggestion)
    (hE : cfg.enable_safety_checks = true) (hV : vendorPath fix = true) :
    isSafeToApply cfg fix = false := by
  unfold isSafeToApply
  rw [hE, hV]
  simp only [Bool.not_true]
  by_cases hf : fileBlocked cfg fix = true
  · simp [hf]
  · by_cases hc : codeBlocked cfg fix = true <;> simp [hf, hc]

/-- C2 witness: the vendor fix is rejected under the default (checks-on)
configuration, whichever override flags are set. -/
theorem c2_witness :
    exampleCfg.enable_safety_checks = true
    ∧ vendorPath vendorFix = true
    ∧ isSafeToApply exampleCfg vendorFix = false :=
  ⟨rfl, by decide, c2_vendor_always_rejected exampleCfg vendorFix rfl (by decide)⟩

/-- C5: whenever the patch operation returns false, the line buffer is
returned unchanged, and the `apply_fix` core does not produce a new file
content (no write happens). -/
theorem c5_failed_patch_mutates_nothing (fix : FixSuggestion) (lines : List String)
    (content : String) :
    ((applyIntelligentFix lines fix).1 = false →
      (applyIntelligentFix lines fix).2 = lines)
    ∧ ((applyIntelligentFix (pySplitlines content) fix).1 = false →
      applyFixContent fix content = none) := by
  constructor
  · intro h
    rw [applyIntelligentFix_false h]
  · intro h
    simp only [applyFixContent, h]
    rfl

/-- C5 witness: a fix whose line number exceeds the one-line buffer fails
and leaves both the buffer and the file content untouched. -/
theorem c5_witness :
    (applyIntelligentFix ["only line"] confidentFix).1 = false
    ∧ (applyIntelligentFix ["only line"] confidentFix).2 = ["only line"]
    ∧ applyFixContent confidentFix "only line" = none :=
  ⟨by decide,
   (c5_failed_patch_mutates_nothing confidentFix ["only line"] "only line").1 (by decide),
   (c5_failed_patch_mutates_nothing confidentFix ["only line"] "only line").2 (by decide)⟩

/-- C6: if a branch was created and `apply_fix`, `commit_fix` or
`push_branch` then fails (returns False or raises), `process_issue` calls
`cleanup_branch` on that branch, which checks out the default branch and
force-deletes the fix branch; no fix branch survives the trace. -/
theorem c6_failure_cleans_up_branch (cfg : Config) (env : ProcEnv)
    (fix : FixSuggestion) (b : String)
    (hd : env.detailsAvailable = true)
    (hs : env.suggestion = some fix)
    (hc : ¬(fix.confidence < 6/10))
    (hrp : env.repoPresent = true)
    (hb : env.branchNameResult = some b)
    (hfail : env.applyOk = false ∨ env.commitResult ≠ .ok ∨ env.pushResult ≠ .ok) :
    GitCall.cleanupBranchCall b ∈ processIssue cfg env
    ∧ GitCall.checkout cfg.git_default_branch ∈ processIssue cfg env
    ∧ GitCall.deleteBranch b true ∈ processIssue cfg env
    ∧ liveBranches (processIssue cfg env) = [] := by
  unfold processIssue
  rw [hd, hs, hrp, hb]
  simp only [Bool.not_true, Bool.false_eq_true, if_false, if_neg hc]
  cases ha : env.applyOk
  · simp [cleanupBranchOps, hrp, liveBranches, List.filter]
  · have hcm : env.commitResult ≠ .ok ∨ env.pushResult ≠ .ok := by
      rcases hfail with h | h | h
      · rw [ha] at h; exact absurd h (by simp)
      · exact Or.inl h
      · exact Or.inr h
    cases hcr : env.commitResult
    · cases hpr : env.pushResult
      · rcases hcm with h | h
        · exact absurd hcr h
        · exact absurd hpr h
      · simp [cleanupBranchOps, hrp, liveBranches, List.filter]
      · simp [cleanupBranchOps, hrp, liveBranches, List.filter]
    · simp [cleanupBranchOps, hrp, liveBranches, List.filter]
    · simp [cleanupBranchOps, hrp, liveBranches, List.filter]

/-- C6 witness: a concrete failed `apply_fix` leads to checkout of the
default branch, forced deletion of the fix branch, and no surviving
branch. -/
theorem c6_witness :
    GitCall.cleanupBranchCall "sentry-fix-123" ∈ processIssue exampleCfg envApplyFails
    ∧ GitCall.checkout exampleCfg.git_default_branch ∈ processIssue exampleCfg envApplyFails
    ∧ GitCall.deleteBranch "sentry-fix-123" true ∈ processIssue exampleCfg envApplyFails
    ∧ liveBranches (processIssue exampleCfg envApplyFails) = [] :=
  c6_failure_cleans_up_branch exampleCfg envApplyFails confidentFix "sentry-fix-123"
    rfl rfl (by norm_num [confidentFix]) rfl rfl (Or.inl rfl)

/-- C7: if at the start of `run_cycle` the repository object is missing,
the working tree is dirty, or untracked files exist, the cycle returns
immediately: no issues are fetched and none are processed. -/
theorem c7_dirty_repo_aborts_cycle (env : CycleEnv)
    (h : env.repo = none
      ∨ ∃ r, env.repo = some r ∧ (r.isDirty = true ∨ r.untrackedFiles ≠ [])) :
    runCycle env = [] := by
  unfold runCycle
  rcases h with h | ⟨r, hr, hd⟩
  · rw [h]; rfl
  · rw [hr]
    rcases hd with hd | hu
    · simp [isRepoClean, hd]
    · have hie : r.untrackedFiles.isEmpty = false := by
        cases hl : r.untrackedFiles
        · exact absurd hl hu
        · rfl
      simp [isRepoClean, hie]

/-- C7 witness: a dirty repository yields an empty cycle trace. -/
theorem c7_witness :
    runCycle { repo := some { isDirty := true, untrackedFiles := [] },
               issueIds := ["1", "2"] } = [] :=
  c7_dirty_repo_aborts_cycle _
    (Or.inr ⟨{ isDirty := true, untrackedFiles := [] }, rfl, Or.inl rfl⟩)

/-- C8: a FixSuggestion with `line_number == 0` is rejected by
`_apply_intelligent_fix` (no buffer mutation, no file write), even though
the safety gate `_is_safe_to_apply` explicitly approves such
general-helper suggestions whenever no file/code/vendor screen fires, so
those approved suggestions can never actually be applied. -/
theorem c8_line_zero_never_applied :
    (∀ (lines : List String) (content : String) (fix : FixSuggestion),
      fix.line_number = 0 →
      applyIntelligentFix lines fix = (false, lines)
      ∧ applyFixContent fix content = none)
    ∧ (∀ (cfg : Config) (fix : FixSuggestion),
      fix.line_number = 0 → fileBlocked cfg fix = false → codeBlocked cfg fix = false →
      vendorPath fix = false → isSafeToApply cfg fix = true) := by
  constructor
  · intro lines content fix h0
    have h1 : ∀ (l : List String), applyIntelligentFix l fix = (false, l) := by
      intro l
      unfold applyIntelligentFix
      rw [if_pos (Or.inl h0)]
    refine ⟨h1 lines, ?_⟩
    simp only [applyFixContent, h1 (pySplitlines content)]
    rfl
  · intro cfg fix h0 hf hc hv
    unfold isSafeToApply
    rw [hf, hc, hv, h0]
    cases he : cfg.enable_safety_checks <;> simp

/-- C8 witness: the concrete general-helper suggestion is approved by the
safety gate under the default configuration yet `_apply_intelligent_fix`
rejects it and `apply_fix` writes nothing. -/
theorem c8_witness :
    applyIntelligentFix ["x = 1"] helperFix = (false, ["x = 1"])
    ∧ applyFixContent helperFix "x = 1" = none
    ∧ isSafeToApply exampleCfg helperFix = true :=
  ⟨(c8_line_zero_never_applied.1 ["x = 1"] "x = 1" helperFix rfl).1,
   (c8_line_zero_never_applied.1 ["x = 1"] "x = 1" helperFix rfl).2,
   c8_line_zero_never_applied.2 exampleCfg helperFix rfl (by decide) (by decide) (by decide)⟩

/-- C9: in each of the three commit formats the assembled title
`"{pref}: {clean_title} in {file_name}"` is truncated to its first 69
characters plus `"..."` (total 72) when longer than 72 characters, and is
kept unchanged otherwise; the conventional and detailed messages are that
same title followed by their respective bodies. -/
theorem c9_commit_title_truncation (cfg : Config) (issue : SentryIssue)
    (fix : FixSuggestion) (cleanTitle fileName : String) :
    (72 < (cfg.commit_message_pref ++ ": " ++ cleanTitle ++ " in " ++ fileName).length →
      generateSimpleCommit cfg cleanTitle fileName
        = pyTake (cfg.commit_message_pref ++ ": " ++ cleanTitle ++ " in " ++ fileName) 69
          ++ "..."
      ∧ (generateSimpleCommit cfg cleanTitle fileName).length = 72)
    ∧ ((cfg.commit_message_pref ++ ": " ++ cleanTitle ++ " in " ++ fileName).length ≤ 72 →
      generateSimpleCommit cfg cleanTitle fileName
        = cfg.commit_message_pref ++ ": " ++ cleanTitle ++ " in " ++ fileName)
    ∧ generateConventionalCommit cfg issue fix cleanTitle fileName
        = generateSimpleCommit cfg cleanTitle fileName ++ conventionalBody issue fix
    ∧ generateDetailedCommit cfg issue fix cleanTitle fileName
        = generateSimpleCommit cfg cleanTitle fileName ++ detailedBody issue fix := by
  refine ⟨?_, ?_, ?_, ?_⟩
  · intro h
    have he : generateSimpleCommit cfg cleanTitle fileName
        = pyTake (cfg.commit_message_pref ++ ": " ++ cleanTitle ++ " in " ++ fileName) 69
          ++ "..." := by
      unfold generateSimpleCommit
      rw [if_pos h]
    refine ⟨he, ?_⟩
    rw [he, String.length_append, pyTake_length]
    have hm : min 69 (cfg.commit_message_pref ++ ": " ++ cleanTitle
        ++ " in " ++ fileName).length = 69 := by omega
    rw [hm]
    rfl
  · intro h
    unfold generateSimpleCommit
    rw [if_neg (by omega)]
  · unfold generateConventionalCommit generateSimpleCommit
    rfl
  · unfold generateDetailedCommit generateSimpleCommit
    rfl

/-- Long error title used by the commit-truncation witness. -/
def longCleanTitle : String :=
  "TypeError: unsupported operand type for this extremely long description"

/-- C9 witness: a concrete over-long title is truncated to exactly 72
characters ending in the ellipsis. -/
theorem c9_witness :
    72 < (exampleCfg.commit_message_pref ++ ": " ++ longCleanTitle
      ++ " in " ++ "user.py").length
    ∧ (generateSimpleCommit exampleCfg longCleanTitle "user.py"
        = pyTake (exampleCfg.commit_message_pref ++ ": " ++ longCleanTitle
            ++ " in " ++ "user.py") 69 ++ "..."
      ∧ (generateSimpleCommit exampleCfg longCleanTitle "user.py").length = 72) :=
  ⟨by decide,
   (c9_commit_title_truncation exampleCfg exampleIssue confidentFix
     longCleanTitle "user.py").1 (by decide)⟩

/-- C10: branch-name generation is deterministic: the documented inputs
produce `sentry-fix-123-keyerror-20240101-000000`, and the sanitized
error-type token appended to a branch name never exceeds 20 characters. -/
theorem c10_branch_name_deterministic :
    generateBranchName exampleCfg "123" "KeyError: \x27foo\x27" "20240101-000000"
      = "sentry-fix-123-keyerror-20240101-000000"
    ∧ ∀ title : String, (pyTake (branchToken title) 20).length ≤ 20 := by
  constructor
  · decide
  · intro title
    rw [pyTake_length]
    exact min_le_left _ _

/-- Fix whose `original_code` is whitespace only, used to refute C3 as
stated. -/
def blankOriginalFix : FixSuggestion :=
  { file_path := "app/x.py"
    line_number := 1
    original_code := " "
    fixed_code := "y"
    explanation := "insert"
    confidence := 7/10 }

/-- C3 counterexample: for `original_code = " "` (non-empty but blank)
the stripped original lines are `[""]`, which match at index 0 inside the
search window of line 1, yet `_apply_intelligent_fix` skips the
replacement branch (its guard requires `original_code.strip()` to be
truthy) and context-inserts instead: the matched run is not deleted and
the output differs from the replacement the claim predicts. -/
theorem c3_counterexample :
    blankOriginalFix.original_code ≠ ""
    ∧ matchesOriginalCode ["x"] 0 (splitNLs (pyStrip blankOriginalFix.original_code)) = true
    ∧ (blankOriginalFix.line_number - 1).toNat - 10 ≤ 0
    ∧ 0 < min (["x"] : List String).length ((blankOriginalFix.line_number - 1).toNat + 10)
    ∧ applyIntelligentFix ["x"] blankOriginalFix = (true, ["y", "x"])
    ∧ applyIntelligentFix ["x"] blankOriginalFix
        ≠ (true, (["x"] : List String).take 0
            ++ processedLines (splitNLs (pyStrip blankOriginalFix.fixed_code))
                (indentOf ((["x"] : List String).getD 0 ""))
            ++ (["x"] : List String).drop
                (0 + (splitNLs (pyStrip blankOriginalFix.original_code)).length)) := by
  decide

/-- C3 (amended): if `fix.original_code` is non-blank (non-empty after
stripping) and some run starting in the search window matches its
stripped lines by stripped-substring containment, then the patcher
deletes exactly the first (lowest-start) such run and splices in the
fixed-code lines, each re-indented against the leading whitespace that
the first matched line had before replacement. -/
theorem c3_fuzzy_replacement (lines : List String) (fix : FixSuggestion) (i0 : Nat)
    (hblank : pyEmpty (pyStrip fix.original_code) = false)
    (hlo : 1 ≤ fix.line_number)
    (hhi : fix.line_number ≤ (lines.length : Int))
    (hwin_lo : (fix.line_number - 1).toNat - 10 ≤ i0)
    (hwin_hi : i0 < min lines.length ((fix.line_number - 1).toNat + 10))
    (hm : matchesOriginalCode lines i0 (splitNLs (pyStrip fix.original_code)) = true)
    (hfirst : ∀ j, (fix.line_number - 1).toNat - 10 ≤ j → j < i0 →
      matchesOriginalCode lines j (splitNLs (pyStrip fix.original_code)) = false) :
    applyIntelligentFix lines fix
      = (true,
         lines.take i0
         ++ processedLines (splitNLs (pyStrip fix.fixed_code))
             (indentOf (lines.getD i0 ""))
         ++ lines.drop (i0 + (splitNLs (pyStrip fix.original_code)).length)) := by
  have hguard : ¬(fix.line_number = 0 ∨ fix.line_number ≤ 0
      ∨ (lines.length : Int) < fix.line_number) := by omega
  have hoc : pyEmpty fix.original_code = false := pyEmpty_of_strip_nonempty hblank
  have hbranch : (!pyEmpty fix.original_code && !pyEmpty (pyStrip fix.original_code))
      = true := by rw [hoc, hblank]; rfl
  have hk := matchesOriginalCode_le hm
  have hi0 : i0 < lines.length := by omega
  have hfm : findMatchIn lines (splitNLs (pyStrip fix.original_code))
      ((fix.line_number - 1).toNat - 10)
      (min lines.length ((fix.line_number - 1).toNat + 10)) = some i0 := by
    unfold findMatchIn
    exact findMatchGo_eq_some _ _ _ hwin_lo (by omega) hm hfirst
  have hrep : replaceOriginalCode lines fix ((fix.line_number - 1).toNat)
      = (true, replaceCodeBlock lines i0 (splitNLs (pyStrip fix.original_code))
          (splitNLs (pyStrip fix.fixed_code))) := by
    simp only [replaceOriginalCode]
    rw [hfm]
  have hrcb : replaceCodeBlock lines i0 (splitNLs (pyStrip fix.original_code))
      (splitNLs (pyStrip fix.fixed_code))
      = lines.take i0
        ++ processedLines (splitNLs (pyStrip fix.fixed_code))
            (indentOf (lines.getD i0 ""))
        ++ lines.drop (i0 + (splitNLs (pyStrip fix.original_code)).length) := by
    unfold replaceCodeBlock
    rw [if_pos hi0]
    rw [popLoop_splice _ _ _ hk]
    rw [insertSeq_splice _ _ _ (by
      simp only [List.length_append, List.length_take, List.length_drop]
      omega)]
    rw [take_splice _ _ _ (le_of_lt hi0), drop_splice _ _ _ (le_of_lt hi0)]
  unfold applyIntelligentFix
  rw [if_neg hguard, if_pos hbranch, hrep, if_pos rfl, hrcb]

/-- Fix matched one line above its declared line, used by the C3
witness. -/
def matchFix : FixSuggestion :=
  { file_path := "app/x.py"
    line_number := 2
    original_code := "old"
    fixed_code := "new"
    explanation := "swap"
    confidence := 7/10 }

/-- C3 witness: the concrete run at index 1 is replaced, keeping the
two-space indentation of the matched line. -/
theorem c3_witness :
    applyIntelligentFix ["alpha", "  old", "beta"] matchFix
      = (true, ["alpha", "  new", "beta"]) :=
  (c3_fuzzy_replacement ["alpha", "  old", "beta"] matchFix 1
    (by decide) (by decide) (by decide) (by decide) (by decide) (by decide)
    (fun j _ hj2 => by
      have hj0 : j = 0 := by omega
      subst hj0
      decide)).trans (by decide)

/-- C4: when `original_code` is blank or no run in the search window
matches, the patcher inserts the re-indented fixed-code lines at the
target line without deleting any existing line; the base indentation is
taken from the first non-blank in-range line among offsets
`0, -1, +1, -2, +2` from the target (in that priority order), defaulting
to four spaces (the `[]` case of `indentFromOffsets`). -/
theorem c4_context_insertion (lines : List String) (fix : FixSuggestion)
    (hlo : 1 ≤ fix.line_number)
    (hhi : fix.line_number ≤ (lines.length : Int))
    (hnm : pyEmpty (pyStrip fix.original_code) = true
      ∨ ∀ j, (fix.line_number - 1).toNat - 10 ≤ j →
          j < min lines.length ((fix.line_number - 1).toNat + 10) →
          matchesOriginalCode lines j (splitNLs (pyStrip fix.original_code)) = false) :
    applyIntelligentFix lines fix
      = (true,
         lines.take ((fix.line_number - 1).toNat)
         ++ processedLines (splitNLs (pyStrip fix.fixed_code))
             (indentFromOffsets lines ((fix.line_number - 1).toNat) [0, -1, 1, -2, 2])
         ++ lines.drop ((fix.line_number - 1).toNat)) := by
  have hguard : ¬(fix.line_number = 0 ∨ fix.line_number ≤ 0
      ∨ (lines.length : Int) < fix.line_number) := by omega
  have htlt : (fix.line_number - 1).toNat < lines.length := by omega
  have hctx : contextBasedInsertion lines fix ((fix.line_number - 1).toNat)
      = (true,
         lines.take ((fix.line_number - 1).toNat)
         ++ processedLines (splitNLs (pyStrip fix.fixed_code))
             (indentFromOffsets lines ((fix.line_number - 1).toNat) [0, -1, 1, -2, 2])
         ++ lines.drop ((fix.line_number - 1).toNat)) := by
    simp only [contextBasedInsertion]
    rw [if_neg (by omega)]
    rw [getAppropriateIndentation_eq_offsets,
      insertSeq_splice _ _ _ (le_of_lt htlt)]
  unfold applyIntelligentFix
  rw [if_neg hguard]
  rcases hnm with hblank | hno
  · rw [if_neg (by simp [hblank])]
    exact hctx
  · by_cases hcond : (!pyEmpty fix.original_code
        && !pyEmpty (pyStrip fix.original_code)) = true
    · rw [if_pos hcond]
      have hnone : findMatchIn lines (splitNLs (pyStrip fix.original_code))
          ((fix.line_number - 1).toNat - 10)
          (min lines.length ((fix.line_number - 1).toNat + 10)) = none := by
        unfold findMatchIn
        apply findMatchGo_eq_none
        intro j hj1 hj2
        exact hno j hj1 (by omega)
      have hrep : replaceOriginalCode lines fix ((fix.line_number - 1).toNat)
          = (false, lines) := by
        simp only [replaceOriginalCode]
        rw [hnone]
      rw [hrep, if_neg (by simp)]
      exact hctx
    · rw [if_neg hcond]
      exact hctx

/-- Fix with empty `original_code`, used by the C4 witness. -/
def insertFix : FixSuggestion :=
  { file_path := "app/x.py"
    line_number := 1
    original_code := ""
    fixed_code := "y"
    explanation := "insert"
    confidence := 7/10 }

/-- C4 witness: with empty original code the fixed line is inserted at
the target line with the indentation of that same line and nothing is
deleted. -/
theorem c4_witness :
    applyIntelligentFix ["  a"] insertFix = (true, ["  y", "  a"]) :=
  (c4_context_insertion ["  a"] insertFix (by decide) (by decide)
    (Or.inl (by decide))).trans (by decide)

end SentrySolver
